import Mathlib

/-!
Verification of the image-handler edit pipeline (`source/image-handler/image-handler.js`
and the second, unnamed copy of the same class).  The JavaScript class is shallowly
embedded: JS numbers are modelled as `Rat`/`Int`/`Nat` (with `parseInt` on a number
modelled as truncation toward zero), JS objects holding edit directives are modelled as
insertion-ordered association lists, rejected promises / thrown errors as `Except`, and
the external collaborators (the sharp image library, the S3 overlay fetch and the
Rekognition face detector) are modelled from the spec's interface section.
-/

namespace SIH

/-- JS `parseInt` applied to a fractional number: truncation toward zero
(`parseInt(-3.5) = -3`, `parseInt(3.5) = 3`). -/
def truncRat (q : Rat) : Int :=
  if 0 ≤ q then ⌊q⌋ else -⌊-q⌋

/-- Modelled from the spec: sharp image metadata, `{width, height}` in pixels. -/
structure Metadata where
  width : Nat
  height : Nat
deriving DecidableEq

/-- The fixed vector watermark templates embedded in the two source files:
the single fixed SVG of the `source/image-handler` variant, and the wide banner /
compact cute templates of the unnamed variant.  The markup itself is opaque; only
the caller-supplied `name` text interpolated into it is tracked. -/
inductive WmTemplate where
  | v1Fixed
  | banner
  | cute
deriving DecidableEq

/-- Byte-level content of a JS `Buffer`.  `src` is a caller-supplied original image,
`render` is the re-encoded output of a sharp pipeline (`toBuffer`), `wmSvg` is a
watermark SVG built with `new Buffer(...)` from a template and an interpolated name,
and `fetched` is an overlay returned by `getOverlayImage`. -/
inductive BufKind where
  | src (id : Nat)
  | render
  | wmSvg (template : WmTemplate) (name : String)
  | fetched (id : Nat)
deriving DecidableEq

/-- A JS `Buffer` holding an image, together with the pixel dimensions encoded in it. -/
structure Buffer where
  kind : BufKind
  dims : Metadata
deriving DecidableEq

/-- The crop rectangle built by `getCropArea` (JS numbers already passed through
`parseInt`, hence `Int`). -/
structure CropArea where
  left : Int
  top : Int
  width : Int
  height : Int
deriving DecidableEq

/-- One operation issued to the sharp image handle, recorded in call order. -/
inductive Op where
  | resizeOp (w h : Option Nat) (fit : Option String)
  | extractOp (r : CropArea)
  | compositeOp (input : Buffer) (left top : Option Int)
  | genericOp (key : String) (tag : Nat)
  | toFormatOp (fmt : String)
deriving DecidableEq

/-- Modelled from the spec: the sharp handle.  `inputDims` are the dimensions of the
buffer the handle was opened on (what `metadata()` reports, pre-pipeline), `dims` the
effective dimensions after the queued operations (what `toBuffer()` yields), and `ops`
the trace of operations in call order. -/
structure ImageState where
  inputDims : Metadata
  dims : Metadata
  ops : List Op
deriving DecidableEq

/-- Modelled from the spec: fit-inside resize semantics — preserve aspect ratio and
bound the image within the given dimensions; an absent axis leaves it unconstrained,
both absent leaves the image unchanged. -/
def fitInsideDims (md : Metadata) (w h : Option Nat) : Metadata :=
  match w, h with
  | none, none => md
  | some w2, none => { width := w2, height := md.height * w2 / md.width }
  | none, some h2 => { width := md.width * h2 / md.height, height := h2 }
  | some w2, some h2 =>
      if md.width * h2 ≤ md.height * w2 then
        { width := md.width * h2 / md.height, height := h2 }
      else
        { width := w2, height := md.height * w2 / md.width }

/-- Modelled from the spec: `extract(rect)` fails exactly when the rectangle exceeds
the image's bounds — negative origin, or origin plus extent beyond width/height. -/
def rectOutOfBounds (r : CropArea) (md : Metadata) : Bool :=
  r.left < 0 || r.top < 0 ||
    (md.width : Int) < r.left + r.width || (md.height : Int) < r.top + r.height

/-- The call `sharp(buffer, ...)` with decode-error tolerance: open a handle on a buffer. -/
def sharpOpen (b : Buffer) : ImageState :=
  { inputDims := b.dims, dims := b.dims, ops := [] }

/-- The call `image.metadata()`: sharp reports the metadata of the input buffer
(pre-pipeline), not of the queued operations' result. -/
def ImageState.metadataOf (st : ImageState) : Metadata :=
  st.inputDims

/-- The call `image.toBuffer()`: run the queued pipeline and re-encode. -/
def ImageState.toBuffer (st : ImageState) : Buffer :=
  { kind := BufKind.render, dims := st.dims }

/-- The call `image.resize(opts)`: queue a fit-inside resize. -/
def ImageState.resize (st : ImageState) (w h : Option Nat) (fit : Option String) :
    ImageState :=
  { inputDims := st.inputDims, dims := fitInsideDims st.dims w h,
    ops := st.ops ++ [Op.resizeOp w h fit] }

/-- The call `image.composite(...)` with one layer of spread options plus an input: queue a composite layer. -/
def ImageState.composite (st : ImageState) (input : Buffer) (left top : Option Int) :
    ImageState :=
  { st with ops := st.ops ++ [Op.compositeOp input left top] }

/-- The call `image.extract(rect)`: throws when the rectangle is out of bounds
(modelled from the spec's collaborator interface), otherwise crops. -/
def ImageState.extract (st : ImageState) (r : CropArea) : Except Unit ImageState :=
  if rectOutOfBounds r st.dims then Except.error ()
  else
    Except.ok
      { inputDims := st.inputDims,
        dims := { width := r.width.toNat, height := r.height.toNat },
        ops := st.ops ++ [Op.extractOp r] }

/-- The call `image[key](value)`: a pass-through call of a named sharp operation;
the opaque argument object is tracked as a tag. -/
def ImageState.generic (st : ImageState) (key : String) (tag : Nat) : ImageState :=
  { st with ops := st.ops ++ [Op.genericOp key tag] }

/-- The call `image.toFormat(fmt)`. -/
def ImageState.toFormat (st : ImageState) (fmt : String) : ImageState :=
  { st with ops := st.ops ++ [Op.toFormatOp fmt] }

/-- A placement option value (`options.left` / `options.top`).  `strVal` is the
caller's original string already split into percent marker and parsed integer
(`"-10p"` is `strVal true (-10)`, `"30"` is `strVal false 30`); `numVal` is the JS
number the pipeline writes back into the same field after resolving it. -/
inductive OptVal where
  | strVal (isPercent : Bool) (n : Int)
  | numVal (n : Int)
deriving DecidableEq

/-- The `value.options` object of an `overlayWith` edit: `{left?, top?}`.  A present field is
modelled as `some`; the JS truthiness guard `if (options.left)` is modelled as
presence of the field. -/
structure PlacementOptions where
  left : Option OptVal
  top : Option OptVal
deriving DecidableEq

/-- The `overlayWith` edit value.  The `wRatio`/`hRatio`/`alpha` fields only feed the
external `getOverlayImage` fetch-and-transform, which is modelled by its result (an
environment input), so they are not tracked. -/
structure OverlaySpec where
  bucket : String
  key : String
  options : Option PlacementOptions
deriving DecidableEq

/-- The `value.options` object of a `TEPWatermark` edit: `{name?, style?}` (absent fields
defaulted to `""` by the destructuring in the source). -/
structure WmOptions where
  name : Option String
  style : Option String
deriving DecidableEq

/-- The `TEPWatermark` edit value.  As for overlays, the ratio/alpha fields feeding
the external fetch are not tracked. -/
structure WatermarkSpec where
  bucket : String
  key : String
  options : WmOptions
deriving DecidableEq

/-- A normalized face bounding box as returned by the face detector
(fractions of the image's width/height). -/
structure BoundingBox where
  Left : Rat
  Top : Rat
  Width : Rat
  Height : Rat
deriving DecidableEq

/-- The value attached to one edit key.  The shape follows the key in any
well-formed request; `generic` carries the opaque argument of a pass-through edit. -/
inductive EditVal where
  | resizeVal (w h : Option Nat) (fit : Option String)
  | overlayVal (spec : OverlaySpec)
  | smartCropVal (faceIndex : Option Nat) (padding : Option Rat)
  | watermarkVal (spec : WatermarkSpec)
  | generic (tag : Nat)
deriving DecidableEq

/-- The error objects thrown / rejected by the pipeline (`{status, code, message}`). -/
structure ErrObj where
  status : Nat
  code : String
  message : String
deriving DecidableEq

/-- An error from the external face detector (AWS-style: `statusCode` optional,
plus `code` and `message`). -/
structure DetectorErr where
  statusCode : Option Nat
  code : String
  message : String
deriving DecidableEq

/-- Lines 70-106: resolve one axis of an overlay placement string against the base
and overlay dimensions.  Percent values go through float arithmetic and a final
`parseInt` (truncation toward zero); plain pixel values stay integral. -/
def resolveCoord (baseDim overlayDim : Nat) (isPercent : Bool) (n : Int) : Int :=
  if isPercent then
    if n < 0 then
      truncRat ((baseDim : Rat) + (baseDim : Rat) * (n : Rat) / 100 - (overlayDim : Rat))
    else
      truncRat ((baseDim : Rat) * (n : Rat) / 100)
  else
    if n < 0 then (baseDim : Int) + n - (overlayDim : Int)
    else n

/-- Restatement of claim C2's resolution rule in the claim's own order, for
comparison with `resolveCoord`: percent `p ≥ 0` gives `base*p/100`, percent `p < 0`
gives `base + base*p/100 - overlay`, pixel `v ≥ 0` gives `v`, pixel `v < 0` gives
`base + v - overlay`, each truncated to an integer. -/
def claimResolve (baseDim overlayDim : Nat) (isPercent : Bool) (n : Int) : Int :=
  if isPercent then
    if 0 ≤ n then
      truncRat ((baseDim : Rat) * (n : Rat) / 100)
    else
      truncRat ((baseDim : Rat) + (baseDim : Rat) * (n : Rat) / 100 - (overlayDim : Rat))
  else
    if 0 ≤ n then n
    else (baseDim : Int) + n - (overlayDim : Int)

/-- Resolve one placement option value.  A `numVal` only arises from the pipeline's
own write-back and never reaches this resolution in a single pass; it is mapped to
itself (`parseInt` of an integer). -/
def resolveOptVal (baseDim overlayDim : Nat) : OptVal → Int
  | OptVal.strVal isPercent n => resolveCoord baseDim overlayDim isPercent n
  | OptVal.numVal n => n

/-- Lines 211-222 / 218-229: `getCropArea`.  `padding` is `parseFloat(options.padding)`
when present, else 0; each component goes through `parseInt` (truncation toward
zero). -/
def getCropArea (boundingBox : BoundingBox) (padding : Option Rat)
    (metadata : Metadata) : CropArea :=
  let pad := padding.getD 0
  { left := truncRat (boundingBox.Left * (metadata.width : Rat) - pad),
    top := truncRat (boundingBox.Top * (metadata.height : Rat) - pad),
    width := truncRat (boundingBox.Width * (metadata.width : Rat) + pad * 2),
    height := truncRat (boundingBox.Height * (metadata.height : Rat) + pad * 2) }

/-- Restatement of claim C3's rectangle with `floor` in place of the code's
truncation toward zero, for comparison with `getCropArea`. -/
def claimCropAreaFloor (boundingBox : BoundingBox) (padding : Option Rat)
    (metadata : Metadata) : CropArea :=
  let pad := padding.getD 0
  { left := ⌊boundingBox.Left * (metadata.width : Rat) - pad⌋,
    top := ⌊boundingBox.Top * (metadata.height : Rat) - pad⌋,
    width := ⌊boundingBox.Width * (metadata.width : Rat) + pad * 2⌋,
    height := ⌊boundingBox.Height * (metadata.height : Rat) + pad * 2⌋ }

/-- Restatement of the amended claim C3's rectangle (truncation toward zero,
padding defaulted to 0 when absent), for comparison with `getCropArea`. -/
def claimCropAreaTrunc (boundingBox : BoundingBox) (padding : Option Rat)
    (metadata : Metadata) : CropArea :=
  let pad := match padding with
    | none => (0 : Rat)
    | some p => p
  { left := truncRat (boundingBox.Left * (metadata.width : Rat) - pad),
    top := truncRat (boundingBox.Top * (metadata.height : Rat) - pad),
    width := truncRat (boundingBox.Width * (metadata.width : Rat) + pad * 2),
    height := truncRat (boundingBox.Height * (metadata.height : Rat) + pad * 2) }

/-- The error thrown inside `getBoundingBox`'s try block: either the detector's own
rejection, or the `TypeError` raised by reading `.BoundingBox` off the `undefined`
entry `response.FaceDetails[faceIdx]`.  The source distinguishes the two by comparing
`err.message` against that `TypeError`'s fixed text; this is modelled by the
constructor (detector messages are assumed to differ from the `TypeError` text). -/
inductive TryErr where
  | detector (e : DetectorErr)
  | undefinedBoundingBox
deriving DecidableEq

/-- The body of `getBoundingBox`'s try block: await the detector, then index the
face list. -/
def getBoundingBoxTry (resp : Except DetectorErr (List BoundingBox)) (faceIdx : Nat) :
    Except TryErr BoundingBox :=
  match resp with
  | Except.error e => Except.error (TryErr.detector e)
  | Except.ok faces =>
      match faces.get? faceIdx with
      | some bb => Except.ok bb
      | none => Except.error TryErr.undefinedBoundingBox

/-- The rejection built for an out-of-range face index. -/
def faceIndexErr : ErrObj :=
  { status := 400, code := "SmartCrop::FaceIndexOutOfRange",
    message := "You have provided a FaceIndex value that exceeds the length of the zero-based detectedFaces array. Please specify a value that is in-range." }

/-- The rejection built for a crop rectangle the extract operation refuses. -/
def paddingErr : ErrObj :=
  { status := 400, code := "SmartCrop::PaddingOutOfBounds",
    message := "The padding value you provided exceeds the boundaries of the original image. Please try choosing a smaller value or applying padding via Sharp for greater specificity." }

/-- Lines 230-253 / 237-260: `getBoundingBox`.  `faceIndex` defaults to 0; an
out-of-range index becomes the 400 `SmartCrop::FaceIndexOutOfRange` rejection, any
other failure is re-thrown as `{status: 500, code: err.code, message: err.message}`
(the literal 500 in the source — the detector's own status code is not consulted). -/
def getBoundingBox (resp : Except DetectorErr (List BoundingBox))
    (faceIndex : Option Nat) : Except ErrObj BoundingBox :=
  let faceIdx := faceIndex.getD 0
  match getBoundingBoxTry resp faceIdx with
  | Except.ok bb => Except.ok bb
  | Except.error TryErr.undefinedBoundingBox => Except.error faceIndexErr
  | Except.error (TryErr.detector e) =>
      Except.error { status := 500, code := e.code, message := e.message }

/-- The external collaborators' behaviour for one request: the outcome of
`getOverlayImage` (S3 fetch plus sizing/alpha transform, already specified as a
`{status, code, message}` rejection on failure) and the face detector's response. -/
structure Env where
  overlayResult : Except ErrObj Buffer
  detectResponse : Except DetectorErr (List BoundingBox)

/-- Lines 60-64 / 126-132: the in-branch metadata recompute
`await sharp(await image.toBuffer()).resize({ edits: { resize: edits.resize }}).metadata()`.
The object passed to `resize` nests the caller's resize options under an `edits` key,
so it carries no `width`/`height`/`fit` fields that sharp recognises; and sharp's
`metadata()` reads the input buffer's (pre-pipeline) dimensions regardless.  Either
way the value produced is the current working buffer's dimensions. -/
def recomputeMetadata (st : ImageState) : Metadata :=
  let imageBuffer := st.toBuffer
  (ImageState.resize (sharpOpen imageBuffer) none none none).metadataOf

/-- The fixed watermark SVG of the `source/image-handler` variant
(`new Buffer(...)` over the single embedded 340x140 template, with `name`
interpolated). -/
def v1WatermarkBuffer (name : String) : Buffer :=
  { kind := BufKind.wmSvg WmTemplate.v1Fixed name,
    dims := { width := 340, height := 140 } }

/-- Lines 124-140 of `source/image-handler/image-handler.js`: the `TEPWatermark`
branch of that variant.  It recomputes metadata, fetches an overlay image (the
`overlay` argument is the successful fetch result), builds the fixed SVG watermark
from `options.name`, and composites the watermark — the fetched overlay is never
used. -/
def tepWatermarkStep1 (st : ImageState) (spec : WatermarkSpec) (overlay : Buffer) :
    ImageState :=
  let imageMetadata := recomputeMetadata st
  let name := spec.options.name.getD ""
  let watermark := v1WatermarkBuffer name
  st.composite watermark none none

/-- The watermark buffer of the unnamed variant: the compact cute template when
`style === 'cute'`, else the wide banner template. -/
def wm2Buffer (style name : String) : Buffer :=
  if style = "cute" then
    { kind := BufKind.wmSvg WmTemplate.cute name, dims := { width := 150, height := 50 } }
  else
    { kind := BufKind.wmSvg WmTemplate.banner name, dims := { width := 340, height := 140 } }

/-- Lines 124-147 of the unnamed variant: its `TEPWatermark` branch.  No fetch;
the template is chosen by `style`, and the composite only happens when
`width > 340 || (width > 150 && style === 'cute')`, otherwise the edit is a
silent no-op. -/
def tepWatermarkStep2 (st : ImageState) (opts : WmOptions) : ImageState :=
  let imageMetadata := recomputeMetadata st
  let name := opts.name.getD ""
  let style := opts.style.getD ""
  let watermark := wm2Buffer style name
  if 340 < imageMetadata.width ∨ (150 < imageMetadata.width ∧ style = "cute") then
    st.composite watermark none none
  else st

/-- Lines 115-123: attempt `image.extract(cropArea)` and replace any thrown error
with the 400 `SmartCrop::PaddingOutOfBounds` rejection. -/
def smartCropExtract (st : ImageState) (cropArea : CropArea) :
    Except ErrObj ImageState :=
  match st.extract cropArea with
  | Except.error _ => Except.error paddingErr
  | Except.ok st2 => Except.ok st2

/-- One iteration of the edit loop of `applyEdits` in
`source/image-handler/image-handler.js` (dispatch on the key string, as in the
source's if/else-if chain).  The accumulator carries the sharp handle and the edit
entries already processed, with any in-place mutations (resolved placement options)
applied — the JS code mutates the caller's `edits` object, and the rebuilt list is
the state of that object after the call.  `metadata` is the base metadata captured
once at pipeline entry. -/
def applyStepV1 (env : Env) (metadata : Metadata)
    (acc : ImageState × List (String × EditVal)) (e : String × EditVal) :
    Except ErrObj (ImageState × List (String × EditVal)) :=
  let st := acc.1
  let done := acc.2
  let key := e.1
  let value := e.2
  if key = "overlayWith" then
    match value with
    | EditVal.overlayVal spec =>
        let imageMetadata := recomputeMetadata st
        match env.overlayResult with
        | Except.error err => Except.error err
        | Except.ok overlay =>
            let overlayMetadata := overlay.dims
            match spec.options with
            | none =>
                Except.ok (st.composite overlay none none,
                  done ++ [(key, EditVal.overlayVal spec)])
            | some o =>
                let newLeft := o.left.map
                  (resolveOptVal imageMetadata.width overlayMetadata.width)
                let newTop := o.top.map
                  (resolveOptVal imageMetadata.height overlayMetadata.height)
                let newOpts : PlacementOptions :=
                  { left := newLeft.map OptVal.numVal, top := newTop.map OptVal.numVal }
                Except.ok (st.composite overlay newLeft newTop,
                  done ++ [(key, EditVal.overlayVal
                    { bucket := spec.bucket, key := spec.key, options := some newOpts })])
    | _ => Except.ok (st.generic key 0, done ++ [e])
  else if key = "smartCrop" then
    match value with
    | EditVal.smartCropVal faceIndex padding =>
        match getBoundingBox env.detectResponse faceIndex with
        | Except.error err => Except.error err
        | Except.ok boundingBox =>
            let cropArea := getCropArea boundingBox padding metadata
            match smartCropExtract st cropArea with
            | Except.error err => Except.error err
            | Except.ok st2 => Except.ok (st2, done ++ [e])
    | _ => Except.ok (st.generic key 0, done ++ [e])
  else if key = "TEPWatermark" then
    match value with
    | EditVal.watermarkVal spec =>
        match env.overlayResult with
        | Except.error err => Except.error err
        | Except.ok overlay =>
            Except.ok (tepWatermarkStep1 st spec overlay, done ++ [e])
    | _ => Except.ok (st.generic key 0, done ++ [e])
  else
    match value with
    | EditVal.resizeVal w h fit => Except.ok (st.resize w h fit, done ++ [e])
    | _ => Except.ok (st.generic key 0, done ++ [e])

/-- One iteration of the edit loop of the unnamed variant's `applyEdits`:
identical except for the `TEPWatermark` branch, which performs no fetch and
composites conditionally. -/
def applyStepV2 (env : Env) (metadata : Metadata)
    (acc : ImageState × List (String × EditVal)) (e : String × EditVal) :
    Except ErrObj (ImageState × List (String × EditVal)) :=
  let st := acc.1
  let done := acc.2
  let key := e.1
  let value := e.2
  if key = "overlayWith" then
    match value with
    | EditVal.overlayVal spec =>
        let imageMetadata := recomputeMetadata st
        match env.overlayResult with
        | Except.error err => Except.error err
        | Except.ok overlay =>
            let overlayMetadata := overlay.dims
            match spec.options with
            | none =>
                Except.ok (st.composite overlay none none,
                  done ++ [(key, EditVal.overlayVal spec)])
            | some o =>
                let newLeft := o.left.map
                  (resolveOptVal imageMetadata.width overlayMetadata.width)
                let newTop := o.top.map
                  (resolveOptVal imageMetadata.height overlayMetadata.height)
                let newOpts : PlacementOptions :=
                  { left := newLeft.map OptVal.numVal, top := newTop.map OptVal.numVal }
                Except.ok (st.composite overlay newLeft newTop,
                  done ++ [(key, EditVal.overlayVal
                    { bucket := spec.bucket, key := spec.key, options := some newOpts })])
    | _ => Except.ok (st.generic key 0, done ++ [e])
  else if key = "smartCrop" then
    match value with
    | EditVal.smartCropVal faceIndex padding =>
        match getBoundingBox env.detectResponse faceIndex with
        | Except.error err => Except.error err
        | Except.ok boundingBox =>
            let cropArea := getCropArea boundingBox padding metadata
            match smartCropExtract st cropArea with
            | Except.error err => Except.error err
            | Except.ok st2 => Except.ok (st2, done ++ [e])
    | _ => Except.ok (st.generic key 0, done ++ [e])
  else if key = "TEPWatermark" then
    match value with
    | EditVal.watermarkVal spec =>
        Except.ok (tepWatermarkStep2 st spec.options, done ++ [e])
    | _ => Except.ok (st.generic key 0, done ++ [e])
  else
    match value with
    | EditVal.resizeVal w h fit => Except.ok (st.resize w h fit, done ++ [e])
    | _ => Except.ok (st.generic key 0, done ++ [e])

/-- The `for` loop over `Object.keys(edits)` / `Object.values(edits)`: fold the
step over the entries in insertion order, aborting on the first rejection. -/
def runEdits
    (step : ImageState × List (String × EditVal) → String × EditVal →
      Except ErrObj (ImageState × List (String × EditVal))) :
    ImageState × List (String × EditVal) → List (String × EditVal) →
    Except ErrObj (ImageState × List (String × EditVal))
  | acc, [] => Except.ok acc
  | acc, e :: rest =>
      match step acc e with
      | Except.error err => Except.error err
      | Except.ok acc2 => runEdits step acc2 rest

/-- The value assigned by `edits.resize = {}; edits.resize.fit = 'inside'`. -/
def defaultResizeVal : EditVal :=
  EditVal.resizeVal none none (some "inside")

/-- Lines 45-48: when the edit set has no `resize` key, assigning
`edits.resize = ...` inserts a new property, which JS insertion order places after
every existing key. -/
def defaultEdits (edits : List (String × EditVal)) : List (String × EditVal) :=
  if (edits.lookup "resize").isNone then edits ++ [("resize", defaultResizeVal)]
  else edits

/-- Lines 44-147 of `source/image-handler/image-handler.js`: `applyEdits`.  Returns
the final sharp handle together with the caller's edit object as it stands after the
call (default resize inserted, placement options rewritten). -/
def applyEditsV1 (originalImage : Buffer) (edits : List (String × EditVal))
    (env : Env) : Except ErrObj (ImageState × List (String × EditVal)) :=
  let edits1 := defaultEdits edits
  let image := sharpOpen originalImage
  let metadata := image.metadataOf
  runEdits (applyStepV1 env metadata) (image, []) edits1

/-- The `applyEdits` method of the unnamed variant. -/
def applyEditsV2 (originalImage : Buffer) (edits : List (String × EditVal))
    (env : Env) : Except ErrObj (ImageState × List (String × EditVal)) :=
  let edits1 := defaultEdits edits
  let image := sharpOpen originalImage
  let metadata := image.metadataOf
  runEdits (applyStepV2 env metadata) (image, []) edits1

/-- An `ImageRequest` as consumed by `process`. -/
structure Request where
  originalImage : Buffer
  edits : Option (List (String × EditVal))
  outputFormat : Option String

/-- A base64-encoded string; base64 is injective and content-preserving, so it is
modelled as a tagged copy of the encoded bytes. -/
structure B64 where
  data : Buffer
deriving DecidableEq

/-- The call of `toString` with the base64 encoding on a buffer. -/
def toBase64 (b : Buffer) : B64 :=
  { data := b }

/-- Lines 23-36: `process`.  With no `edits` the original bytes are base64-encoded
as-is; otherwise the edits are applied, the optional output format set, and the
pipeline rendered to a buffer and base64-encoded. -/
def process (request : Request) (env : Env) : Except ErrObj B64 :=
  match request.edits with
  | none => Except.ok (toBase64 request.originalImage)
  | some edits =>
      match applyEditsV1 request.originalImage edits env with
      | Except.error e => Except.error e
      | Except.ok acc =>
          let modifiedImage :=
            match request.outputFormat with
            | some fmt => acc.1.toFormat fmt
            | none => acc.1
          Except.ok (toBase64 modifiedImage.toBuffer)

/-! Concrete instances used to evaluate the pipeline at specific inputs. -/

/-- A small 10x10 metadata value. -/
def d0 : Metadata := { width := 10, height := 10 }

/-- A 10x10 original image buffer. -/
def buf0 : Buffer := { kind := BufKind.src 0, dims := d0 }

/-- An environment whose collaborators are never consulted by the runs it is used
in (a failing overlay fetch and an empty face list). -/
def dummyEnv : Env :=
  { overlayResult := Except.error { status := 500, code := "NoSuchKey", message := "no overlay" },
    detectResponse := Except.ok [] }

/-- The result of `applyEditsV1 buf0 [] dummyEnv`: the injected default resize is
the only edit, applied to the 10x10 image. -/
def resEmptyRun : ImageState × List (String × EditVal) :=
  ({ inputDims := d0, dims := d0, ops := [Op.resizeOp none none (some "inside")] },
   [("resize", defaultResizeVal)])

/-- A face bounding box covering the whole image. -/
def bb0 : BoundingBox := { Left := 0, Top := 0, Width := 1, Height := 1 }

/-- An environment whose face detector finds exactly one face. -/
def env5 : Env :=
  { overlayResult := Except.error { status := 500, code := "NoSuchKey", message := "no overlay" },
    detectResponse := Except.ok [bb0] }

/-- The 20x20 overlay fetch result of the C6 run. -/
def c6Overlay : Buffer :=
  { kind := BufKind.fetched 0, dims := { width := 20, height := 20 } }

/-- The environment of the C6 run. -/
def c6Env : Env :=
  { overlayResult := Except.ok c6Overlay, detectResponse := Except.ok [] }

/-- The 200x100 original image of the C6 run. -/
def c6Buf : Buffer := { kind := BufKind.src 1, dims := { width := 200, height := 100 } }

/-- The C6 edit set: an overlay placed at `left = "50p"`, followed (in insertion
order) by an explicit resize to 100x50. -/
def c6Edits : List (String × EditVal) :=
  [("overlayWith", EditVal.overlayVal
      { bucket := "b", key := "k",
        options := some { left := some (OptVal.strVal true 50), top := none } }),
   ("resize", EditVal.resizeVal (some 100) (some 50) (some "inside"))]

/-- A 100x100 working image. -/
def st100 : ImageState :=
  { inputDims := { width := 100, height := 100 },
    dims := { width := 100, height := 100 }, ops := [] }

/-- A 200x100 working image. -/
def st200 : ImageState :=
  { inputDims := { width := 200, height := 100 },
    dims := { width := 200, height := 100 }, ops := [] }

/-- Watermark options with no style requested. -/
def optsDefault : WmOptions := { name := none, style := none }

/-- Watermark options requesting the cute style. -/
def optsCute : WmOptions := { name := none, style := some "cute" }

/-- One possible overlay fetch result. -/
def bufA : Buffer := { kind := BufKind.fetched 1, dims := { width := 30, height := 30 } }

/-- A different overlay fetch result for the same request. -/
def bufB : Buffer := { kind := BufKind.fetched 2, dims := { width := 40, height := 40 } }

/-- An environment whose overlay fetch yields `bufA`. -/
def envA : Env := { overlayResult := Except.ok bufA, detectResponse := Except.ok [] }

/-- An environment whose overlay fetch yields `bufB`. -/
def envB : Env := { overlayResult := Except.ok bufB, detectResponse := Except.ok [] }

/-- A `TEPWatermark` edit value. -/
def wmSpec0 : WatermarkSpec :=
  { bucket := "b", key := "k", options := { name := some "alice", style := none } }

/-- An edit set holding one `overlayWith` entry whose `left` option is the pixel
string `"30"` (no `resize` key). -/
def c9Edits : List (String × EditVal) :=
  [("overlayWith", EditVal.overlayVal
      { bucket := "b", key := "k",
        options := some { left := some (OptVal.strVal false 30), top := none } })]

/-- The result of `applyEditsV1 buf0 c9Edits envA`: the overlay is composited at
the resolved position, the entry's `left` option is overwritten with the number 30,
and the default resize entry is appended. -/
def c9Res : ImageState × List (String × EditVal) :=
  ({ inputDims := d0, dims := d0,
     ops := [Op.compositeOp bufA (some 30) none,
       Op.resizeOp none none (some "inside")] },
   [("overlayWith", EditVal.overlayVal
       { bucket := "b", key := "k",
         options := some { left := some (OptVal.numVal 30), top := none } }),
    ("resize", defaultResizeVal)])

/-- The result of the single `overlayWith` step of that run. -/
def c9StepRes : ImageState × List (String × EditVal) :=
  ({ inputDims := d0, dims := d0, ops := [Op.compositeOp bufA (some 30) none] },
   [("overlayWith", EditVal.overlayVal
       { bucket := "b", key := "k",
         options := some { left := some (OptVal.numVal 30), top := none } })])

/-! Helper lemmas. -/

/-- The in-branch metadata recompute always produces the current working
dimensions (the malformed resize options constrain nothing, and `metadata()` reads
the input buffer). -/
theorem recomputeMetadata_eq (st : ImageState) : recomputeMetadata st = st.dims := rfl

/-- Every successful step of the V1 edit loop appends exactly its own key to the
processed entry list. -/
theorem applyStepV1_keys (env : Env) (metadata : Metadata)
    (acc : ImageState × List (String × EditVal)) (e : String × EditVal)
    (r : ImageState × List (String × EditVal))
    (h : applyStepV1 env metadata acc e = Except.ok r) :
    r.2.map Prod.fst = acc.2.map Prod.fst ++ [e.1] := by
  unfold applyStepV1 at h
  dsimp only at h
  repeat' split at h
  all_goals first
    | exact Except.noConfusion h
    | (injection h with h2; subst h2; simp)

/-- A successful run of the edit loop processes exactly the keys of its input
list, in order, after the keys already processed. -/
theorem runEdits_keys
    (step : ImageState × List (String × EditVal) → String × EditVal →
      Except ErrObj (ImageState × List (String × EditVal)))
    (hstep : ∀ acc e r, step acc e = Except.ok r →
      r.2.map Prod.fst = acc.2.map Prod.fst ++ [e.1])
    (l : List (String × EditVal)) :
    ∀ acc res, runEdits step acc l = Except.ok res →
      res.2.map Prod.fst = acc.2.map Prod.fst ++ l.map Prod.fst := by
  induction l with
  | nil =>
      intro acc res h
      unfold runEdits at h
      injection h with h2
      subst h2
      simp
  | cons e rest ih =>
      intro acc res h
      unfold runEdits at h
      cases hs : step acc e with
      | error err => rw [hs] at h; exact Except.noConfusion h
      | ok acc2 =>
          rw [hs] at h
          have hrest := ih acc2 res h
          rw [hrest, hstep acc e acc2 hs]
          simp

/-- A successful run over a list ending in one extra entry factors into a
successful run over the prefix followed by one successful step on that entry. -/
theorem runEdits_snoc
    (step : ImageState × List (String × EditVal) → String × EditVal →
      Except ErrObj (ImageState × List (String × EditVal)))
    (l : List (String × EditVal)) (e : String × EditVal) :
    ∀ acc res, runEdits step acc (l ++ [e]) = Except.ok res →
      ∃ acc2, runEdits step acc l = Except.ok acc2 ∧ step acc2 e = Except.ok res := by
  induction l with
  | nil =>
      intro acc res h
      refine ⟨acc, rfl, ?_⟩
      have hd : runEdits step acc ([] ++ [e]) =
          match step acc e with
          | Except.error err => Except.error err
          | Except.ok acc2 => Except.ok acc2 := by
        show (match step acc e with
          | Except.error err => Except.error err
          | Except.ok acc2 => runEdits step acc2 []) =
          match step acc e with
          | Except.error err => Except.error err
          | Except.ok acc2 => Except.ok acc2
        cases step acc e <;> rfl
      rw [hd] at h
      cases hs : step acc e with
      | error err => rw [hs] at h; exact Except.noConfusion h
      | ok acc2 =>
          rw [hs] at h
          exact h
  | cons e2 rest ih =>
      intro acc res h
      have hd : runEdits step acc ((e2 :: rest) ++ [e]) =
          match step acc e2 with
          | Except.error err => Except.error err
          | Except.ok acc2 => runEdits step acc2 (rest ++ [e]) := rfl
      rw [hd] at h
      cases hs : step acc e2 with
      | error err => rw [hs] at h; exact Except.noConfusion h
      | ok acc2 =>
          rw [hs] at h
          obtain ⟨acc3, h1, h2⟩ := ih acc2 res h
          refine ⟨acc3, ?_, h2⟩
          have hd2 : runEdits step acc (e2 :: rest) =
              match step acc e2 with
              | Except.error err => Except.error err
              | Except.ok a => runEdits step a rest := rfl
          rw [hd2, hs]
          exact h1

/-! Claim theorems. -/

/-- C1, counterexample: for the edit set `{grayscale: ...}` (no `resize` key) the
pipeline's operation trace is the caller's edit followed by the default resize —
not the trace the claim's "prepended, applied first" behaviour would give. -/
theorem c1_resize_prepended_cex :
    (applyEditsV1 buf0 [("grayscale", EditVal.generic 0)] dummyEnv).map
        (fun r => r.1.ops) =
      Except.ok [Op.genericOp "grayscale" 0, Op.resizeOp none none (some "inside")] ∧
    [Op.genericOp "grayscale" 0, Op.resizeOp none none (some "inside")] ≠
      [Op.resizeOp none none (some "inside"), Op.genericOp "grayscale" 0] :=
  ⟨rfl, by decide⟩

/-- C1, amended: for every edit directive set lacking a `resize` key, `applyEdits`
behaves as if `{resize: {fit: "inside"}}` were APPENDED to the set (JS property
insertion order places the new key last), so the default fit-inside resize is
applied after every caller-specified edit, as the final operation of the trace. -/
theorem c1_resize_appended (edits : List (String × EditVal)) (env : Env)
    (buf : Buffer) (res : ImageState × List (String × EditVal))
    (hno : (edits.lookup "resize").isNone = true)
    (hok : applyEditsV1 buf edits env = Except.ok res) :
    defaultEdits edits = edits ++ [("resize", defaultResizeVal)] ∧
    ∃ pre, res.1.ops = pre ++ [Op.resizeOp none none (some "inside")] := by
  have hdef : defaultEdits edits = edits ++ [("resize", defaultResizeVal)] := by
    unfold defaultEdits
    rw [if_pos hno]
  refine ⟨hdef, ?_⟩
  simp only [applyEditsV1] at hok
  rw [hdef] at hok
  obtain ⟨acc2, hmid, hstep⟩ :=
    runEdits_snoc (applyStepV1 env (sharpOpen buf).metadataOf) edits
      ("resize", defaultResizeVal) (sharpOpen buf, []) res hok
  have hval : applyStepV1 env (sharpOpen buf).metadataOf acc2
      ("resize", defaultResizeVal) =
      Except.ok (acc2.1.resize none none (some "inside"),
        acc2.2 ++ [("resize", defaultResizeVal)]) := rfl
  rw [hval] at hstep
  injection hstep with h2
  subst h2
  exact ⟨acc2.1.ops, rfl⟩

/-- C1, witness: the empty edit set gets the default resize appended and the run's
trace ends with the default resize operation. -/
theorem c1_resize_appended_witness :
    defaultEdits ([] : List (String × EditVal)) = [] ++ [("resize", defaultResizeVal)] ∧
    ∃ pre, resEmptyRun.1.ops = pre ++ [Op.resizeOp none none (some "inside")] :=
  c1_resize_appended [] dummyEnv buf0 resEmptyRun (by decide) rfl

/-- C2, counterexample: `left="-10p"` on a base width 200 with overlay width 20
resolves to `200 + 200*(-10)/100 - 20 = 160`, not the 158 the claim states. -/
theorem c2_percent_example_cex :
    resolveCoord 200 20 true (-10) = 160 ∧ (160 : Int) ≠ 158 := by
  constructor
  · simp only [resolveCoord, truncRat]
    norm_num
  · decide

/-- C2, amended: the per-axis resolution rule is exactly as claimed (percent `p ≥ 0`
gives `base*p/100`, percent `p < 0` gives `base + base*p/100 - overlay`, pixel
`v ≥ 0` gives `v`, pixel `v < 0` gives `base + v - overlay`, truncated to an
integer), and on base width 200 with overlay width 20: `"10p"` resolves to 20,
`"-10p"` to 160 (not 158), `"-30"` to 150, and `"30"` to 30. -/
theorem c2_placement_resolution :
    (∀ (baseDim overlayDim : Nat) (isPercent : Bool) (n : Int),
      resolveCoord baseDim overlayDim isPercent n =
        claimResolve baseDim overlayDim isPercent n) ∧
    resolveCoord 200 20 true 10 = 20 ∧
    resolveCoord 200 20 true (-10) = 160 ∧
    resolveCoord 200 20 false (-30) = 150 ∧
    resolveCoord 200 20 false 30 = 30 := by
  refine ⟨fun baseDim overlayDim isPercent n => ?_,
    by simp only [resolveCoord, truncRat]; norm_num,
    by simp only [resolveCoord, truncRat]; norm_num,
    by simp only [resolveCoord, truncRat]; norm_num,
    by simp only [resolveCoord, truncRat]; norm_num⟩
  rcases lt_or_le n 0 with h | h
  · have h2 : ¬ 0 ≤ n := not_le.mpr h
    cases isPercent <;> simp [resolveCoord, claimResolve, h, h2]
  · have h2 : ¬ n < 0 := not_lt.mpr h
    cases isPercent <;> simp [resolveCoord, claimResolve, h, h2]

/-- C3, counterexample: for the box `{Left: 0.015, Top: 0, Width: 0.5, Height: 0.5}`
on a 100x100 image with padding 5, the code's `parseInt` truncation yields
`left = -3`, while the claimed `floor` formula yields `-4`. -/
theorem c3_floor_cex :
    (getCropArea { Left := 3/200, Top := 0, Width := 1/2, Height := 1/2 } (some 5)
        { width := 100, height := 100 }).left = -3 ∧
    (claimCropAreaFloor { Left := 3/200, Top := 0, Width := 1/2, Height := 1/2 } (some 5)
        { width := 100, height := 100 }).left = -4 ∧
    ((-3 : Int)) ≠ -4 := by
  refine ⟨?_, ?_, by decide⟩
  · simp only [getCropArea, Option.getD, truncRat]
    norm_num
  · simp only [claimCropAreaFloor, Option.getD]
    norm_num

/-- C3, amended: `getCropArea` returns
`{left = trunc(Left*width − padding), top = trunc(Top*height − padding),
width = trunc(Width*width + 2*padding), height = trunc(Height*height + 2*padding)}`
where `trunc` truncates toward zero (JS `parseInt`), not `floor`; the two agree on
nonnegative values, and in particular the box `{Left: 0.1, Top: 0.2, Width: 0.5,
Height: 0.4}` on a 300x200 image with padding 5 yields
`{left: 25, top: 35, width: 160, height: 90}`. -/
theorem c3_crop_area :
    (∀ (boundingBox : BoundingBox) (padding : Option Rat) (metadata : Metadata),
      getCropArea boundingBox padding metadata =
        claimCropAreaTrunc boundingBox padding metadata) ∧
    getCropArea { Left := 1/10, Top := 1/5, Width := 1/2, Height := 2/5 } (some 5)
        { width := 300, height := 200 } =
      { left := 25, top := 35, width := 160, height := 90 } := by
  refine ⟨fun boundingBox padding metadata => ?_, ?_⟩
  · cases padding <;> rfl
  · simp only [getCropArea, Option.getD, truncRat, CropArea.mk.injEq]
    norm_num

/-- C4, counterexample: a detector failure carrying its own status 403 is
propagated with status 500 — the literal in the source — not with the detector's
status as the claim states. -/
theorem c4_status_propagation_cex :
    getBoundingBox
        (Except.error { statusCode := some 403, code := "AccessDenied", message := "denied" })
        none =
      Except.error { status := 500, code := "AccessDenied", message := "denied" } ∧
    (500 : Nat) ≠ 403 :=
  ⟨rfl, by decide⟩

/-- C4, amended: when the face list has no entry at the requested index (default 0),
`getBoundingBox` fails with `SmartCrop::FaceIndexOutOfRange` and status 400; every
other detector failure is propagated with status fixed at 500 (the detector's own
status is discarded) and the detector's code and message. -/
theorem c4_bounding_box_errors :
    (∀ (faces : List BoundingBox) (faceIndex : Option Nat),
      faces.get? (faceIndex.getD 0) = none →
        getBoundingBox (Except.ok faces) faceIndex = Except.error faceIndexErr) ∧
    (∀ (e : DetectorErr) (faceIndex : Option Nat),
      getBoundingBox (Except.error e) faceIndex =
        Except.error { status := 500, code := e.code, message := e.message }) ∧
    faceIndexErr.status = 400 ∧ faceIndexErr.code = "SmartCrop::FaceIndexOutOfRange" := by
  refine ⟨?_, ?_, rfl, rfl⟩
  · intro faces faceIndex h
    simp only [getBoundingBox, getBoundingBoxTry, h]
  · intro e faceIndex
    rfl

/-- C4, witness: an empty face list with requested index 2 fails with the
out-of-range rejection. -/
theorem c4_bounding_box_errors_witness :
    getBoundingBox (Except.ok ([] : List BoundingBox)) (some 2) =
      Except.error faceIndexErr :=
  c4_bounding_box_errors.1 [] (some 2) (by decide)

/-- C5: a `smartCrop` edit whose computed crop rectangle is out of the current
image's bounds (negative origin, or origin plus extent beyond width/height) fails
with `SmartCrop::PaddingOutOfBounds` and status 400, produced by attempting the
extract operation and replacing its rejection. -/
theorem c5_padding_out_of_bounds (st : ImageState)
    (done : List (String × EditVal)) (env : Env) (metadata : Metadata)
    (faceIndex : Option Nat) (padding : Option Rat) (boundingBox : BoundingBox)
    (hface : getBoundingBox env.detectResponse faceIndex = Except.ok boundingBox)
    (hoob : rectOutOfBounds (getCropArea boundingBox padding metadata) st.dims = true) :
    applyStepV1 env metadata (st, done)
        ("smartCrop", EditVal.smartCropVal faceIndex padding) =
      Except.error paddingErr ∧
    paddingErr.status = 400 ∧ paddingErr.code = "SmartCrop::PaddingOutOfBounds" := by
  refine ⟨?_, rfl, rfl⟩
  have hstep : applyStepV1 env metadata (st, done)
      ("smartCrop", EditVal.smartCropVal faceIndex padding) =
      match getBoundingBox env.detectResponse faceIndex with
      | Except.error err => Except.error err
      | Except.ok bb =>
          match smartCropExtract st (getCropArea bb padding metadata) with
          | Except.error err => Except.error err
          | Except.ok st2 =>
              Except.ok (st2, done ++ [("smartCrop", EditVal.smartCropVal faceIndex padding)]) :=
    rfl
  have hex : smartCropExtract st (getCropArea boundingBox padding metadata) =
      Except.error paddingErr := by
    unfold smartCropExtract ImageState.extract
    rw [if_pos hoob]
  rw [hstep]
  simp only [hface, hex]

/-- C5, witness: a full-image bounding box on a 10x10 image with padding 50
produces a rectangle with negative origin, and the smartCrop step rejects it with
the padding error. -/
theorem c5_padding_out_of_bounds_witness :
    applyStepV1 env5 d0 (sharpOpen buf0, [])
        ("smartCrop", EditVal.smartCropVal none (some 50)) =
      Except.error paddingErr :=
  (c5_padding_out_of_bounds (sharpOpen buf0) [] env5 d0 none (some 50) bb0
    rfl (by
      simp only [rectOutOfBounds, getCropArea, Option.getD, truncRat, bb0, d0,
        buf0, sharpOpen]
      norm_num)).1

/-- C6: on the 200x100 image with edits `{overlayWith: {options: {left: "50p"}},
resize: {width: 100, height: 50, fit: "inside"}}`, the overlay is composited at
`left = 100` — 50 percent of the PRE-resize width 200 — although the resize
directive pending in the same edit set takes the image to 100x50, on which the
claimed post-resize placement would be 50.  The in-branch recompute
`sharp(buffer).resize({edits: {resize: ...}}).metadata()` nests the options under
the wrong key and reads pre-pipeline metadata, so it never reflects the resize. -/
theorem c6_metadata_recompute_bug :
    (applyEditsV1 c6Buf c6Edits c6Env).map (fun r => r.1.ops) =
      Except.ok [Op.compositeOp c6Overlay (some 100) none,
        Op.resizeOp (some 100) (some 50) (some "inside")] ∧
    fitInsideDims { width := 200, height := 100 } (some 100) (some 50) =
      { width := 100, height := 50 } ∧
    resolveCoord 200 20 true 50 = 100 ∧
    resolveCoord (fitInsideDims { width := 200, height := 100 }
        (some 100) (some 50)).width 20 true 50 = 50 ∧
    (100 : Int) ≠ 50 := by
  have h50 : resolveCoord 200 20 true 50 = 100 := by
    simp only [resolveCoord, truncRat]
    norm_num
  have hfit : fitInsideDims { width := 200, height := 100 } (some 100) (some 50) =
      { width := 100, height := 50 } := by decide
  have h50b : resolveCoord (fitInsideDims { width := 200, height := 100 }
      (some 100) (some 50)).width 20 true 50 = 50 := by
    rw [hfit]
    simp only [resolveCoord, truncRat]
    norm_num
  refine ⟨?_, hfit, h50, h50b, by decide⟩
  have hrun : (applyEditsV1 c6Buf c6Edits c6Env).map (fun r => r.1.ops) =
      Except.ok [Op.compositeOp c6Overlay (some (resolveCoord 200 20 true 50)) none,
        Op.resizeOp (some 100) (some 50) (some "inside")] := rfl
  rw [hrun, h50]

/-- C7, counterexample: a request whose edit directive set is the empty set `{}`
does not return the original bytes — the pipeline runs (with the injected default
resize) and returns the re-encoded render of the working image, which is not the
source buffer. -/
theorem c7_empty_edits_cex :
    process { originalImage := buf0, edits := some [], outputFormat := none }
        dummyEnv =
      Except.ok (toBase64 { kind := BufKind.render, dims := d0 }) ∧
    toBase64 { kind := BufKind.render, dims := d0 } ≠ toBase64 buf0 :=
  ⟨rfl, by decide⟩

/-- C7, amended: only when the edit directive set is ABSENT does `process` return
the original image bytes base64-encoded, byte-identical to the input; an empty set
`{}` instead triggers the edit pipeline (default fit-inside resize injected) and
returns the base64 encoding of the re-encoded pipeline output. -/
theorem c7_roundtrip_amended :
    (∀ (request : Request) (env : Env), request.edits = none →
      process request env = Except.ok (toBase64 request.originalImage)) ∧
    (∀ (ob : Buffer) (env : Env),
      process { originalImage := ob, edits := some [], outputFormat := none } env =
        Except.ok (toBase64 { kind := BufKind.render, dims := ob.dims })) := by
  constructor
  · intro request env h
    unfold process
    rw [h]
  · intro ob env
    rfl

/-- C7, witness: a request without edits returns its original bytes base64-encoded. -/
theorem c7_roundtrip_amended_witness :
    process { originalImage := buf0, edits := none, outputFormat := none } dummyEnv =
      Except.ok (toBase64 buf0) :=
  c7_roundtrip_amended.1
    { originalImage := buf0, edits := none, outputFormat := none } dummyEnv rfl

/-- C8: in the unnamed variant's `TEPWatermark` branch, the watermark is composited
exactly when the base image width exceeds 340, or exceeds 150 with style "cute";
otherwise the edit leaves the image unchanged, with no error.  In particular width
100 with default style and width 200 with default style skip the watermark, while
width 200 with style "cute" composites it. -/
theorem c8_watermark_condition :
    (∀ (st : ImageState) (opts : WmOptions),
      ((340 < st.dims.width ∨ (150 < st.dims.width ∧ opts.style.getD "" = "cute")) →
        tepWatermarkStep2 st opts =
          st.composite (wm2Buffer (opts.style.getD "") (opts.name.getD "")) none none) ∧
      (¬ (340 < st.dims.width ∨ (150 < st.dims.width ∧ opts.style.getD "" = "cute")) →
        tepWatermarkStep2 st opts = st)) ∧
    tepWatermarkStep2 st100 optsDefault = st100 ∧
    tepWatermarkStep2 st200 optsCute = st200.composite (wm2Buffer "cute" "") none none ∧
    tepWatermarkStep2 st200 optsDefault = st200 := by
  refine ⟨fun st opts => ⟨fun h => ?_, fun h => ?_⟩, by decide, by decide, by decide⟩
  · simp only [tepWatermarkStep2, recomputeMetadata_eq]
    rw [if_pos h]
  · simp only [tepWatermarkStep2, recomputeMetadata_eq]
    rw [if_neg h]

/-- C8, witness: width 200 with style "cute" composites the cute-template
watermark. -/
theorem c8_watermark_condition_witness :
    tepWatermarkStep2 st200 optsCute =
      st200.composite (wm2Buffer (optsCute.style.getD "") (optsCute.name.getD ""))
        none none :=
  (c8_watermark_condition.1 st200 optsCute).1 (by decide)

/-- C9, counterexample: `applyEdits` on the empty edit set leaves the caller's
edits object holding the injected default resize entry — the object is not
unchanged. -/
theorem c9_edits_mutated_cex :
    (applyEditsV1 buf0 [] dummyEnv).map Prod.snd =
      Except.ok [("resize", defaultResizeVal)] ∧
    ([("resize", defaultResizeVal)] : List (String × EditVal)) ≠ [] :=
  ⟨rfl, by decide⟩

/-- C9, amended: `applyEdits` mutates the edits object it is given: after a
successful call the object's keys are exactly those of the defaulted set — the
caller's keys followed, when no `resize` key was present, by an appended `resize`
key — and every successfully processed `overlayWith` entry with present placement
options has those option values overwritten with the resolved integer positions
(`OptVal.numVal` of the per-axis resolution against the recomputed base metadata
and the overlay's dimensions). -/
theorem c9_edits_mutated (edits : List (String × EditVal)) (env : Env)
    (buf : Buffer) (res : ImageState × List (String × EditVal))
    (hok : applyEditsV1 buf edits env = Except.ok res) :
    res.2.map Prod.fst = (defaultEdits edits).map Prod.fst ∧
    ((edits.lookup "resize").isNone = true →
      (defaultEdits edits).map Prod.fst = edits.map Prod.fst ++ ["resize"]) ∧
    (∀ (st : ImageState) (done : List (String × EditVal)) (env2 : Env)
        (metadata : Metadata) (spec : OverlaySpec) (o : PlacementOptions)
        (overlay : Buffer) (r : ImageState × List (String × EditVal)),
      env2.overlayResult = Except.ok overlay →
      spec.options = some o →
      applyStepV1 env2 metadata (st, done)
          ("overlayWith", EditVal.overlayVal spec) = Except.ok r →
      r.2 = done ++ [("overlayWith", EditVal.overlayVal
        { bucket := spec.bucket, key := spec.key,
          options := some
            { left := (o.left.map
                (resolveOptVal (recomputeMetadata st).width overlay.dims.width)).map
                  OptVal.numVal,
              top := (o.top.map
                (resolveOptVal (recomputeMetadata st).height overlay.dims.height)).map
                  OptVal.numVal } })]) := by
  refine ⟨?_, ?_, ?_⟩
  · unfold applyEditsV1 at hok
    have h := runEdits_keys (applyStepV1 env (sharpOpen buf).metadataOf)
        (applyStepV1_keys env (sharpOpen buf).metadataOf) (defaultEdits edits)
        (sharpOpen buf, []) res hok
    simpa using h
  · intro hno
    unfold defaultEdits
    rw [if_pos hno]
    simp
  · intro st done env2 metadata spec o overlay r hov hopt hr
    have h1 : applyStepV1 env2 metadata (st, done)
        ("overlayWith", EditVal.overlayVal spec) =
        match env2.overlayResult with
        | Except.error err => Except.error err
        | Except.ok ov =>
            match spec.options with
            | none => Except.ok (st.composite ov none none,
                done ++ [("overlayWith", EditVal.overlayVal spec)])
            | some o2 => Except.ok (st.composite ov
                (o2.left.map (resolveOptVal (recomputeMetadata st).width ov.dims.width))
                (o2.top.map (resolveOptVal (recomputeMetadata st).height ov.dims.height)),
              done ++ [("overlayWith", EditVal.overlayVal
                { bucket := spec.bucket, key := spec.key,
                  options := some
                    { left := (o2.left.map
                        (resolveOptVal (recomputeMetadata st).width ov.dims.width)).map
                          OptVal.numVal,
                      top := (o2.top.map
                        (resolveOptVal (recomputeMetadata st).height ov.dims.height)).map
                          OptVal.numVal } })]) := rfl
    rw [h1, hov] at hr
    simp only [hopt] at hr
    injection hr with h2
    rw [← h2]

/-- C9, witness: running the edit set `{overlayWith: {options: {left: "30"}}}` on
the 10x10 image with a successful 30x30 overlay fetch appends the `resize` key,
and the `overlayWith` step rewrites the entry's `left` option from the string
`"30"` to the resolved number 30. -/
theorem c9_edits_mutated_witness :
    c9Res.2.map Prod.fst = (defaultEdits c9Edits).map Prod.fst ∧
    c9StepRes.2 = [] ++ [("overlayWith", EditVal.overlayVal
      { bucket := "b", key := "k",
        options := some
          { left := ((some (OptVal.strVal false 30)).map
              (resolveOptVal (recomputeMetadata (sharpOpen buf0)).width
                bufA.dims.width)).map OptVal.numVal,
            top := ((none : Option OptVal).map
              (resolveOptVal (recomputeMetadata (sharpOpen buf0)).height
                bufA.dims.height)).map OptVal.numVal } })] :=
  ⟨(c9_edits_mutated c9Edits envA buf0 c9Res rfl).1,
   (c9_edits_mutated c9Edits envA buf0 c9Res rfl).2.2 (sharpOpen buf0) [] envA d0
     { bucket := "b", key := "k",
       options := some { left := some (OptVal.strVal false 30), top := none } }
     { left := some (OptVal.strVal false 30), top := none }
     bufA c9StepRes rfl rfl rfl⟩

/-- C10: in the `TEPWatermark` branch of the `source/image-handler` variant, any
two successful overlay fetch results for the same request produce the same step
outcome — the branch composites only the fixed interpolated SVG watermark and the
fetched overlay is discarded unused. -/
theorem c10_watermark_fetch_independent (st : ImageState)
    (done : List (String × EditVal)) (env1 env2 : Env) (metadata : Metadata)
    (spec : WatermarkSpec) (o1 o2 : Buffer)
    (h1 : env1.overlayResult = Except.ok o1)
    (h2 : env2.overlayResult = Except.ok o2) :
    applyStepV1 env1 metadata (st, done) ("TEPWatermark", EditVal.watermarkVal spec) =
      applyStepV1 env2 metadata (st, done) ("TEPWatermark", EditVal.watermarkVal spec) ∧
    applyStepV1 env1 metadata (st, done) ("TEPWatermark", EditVal.watermarkVal spec) =
      Except.ok (tepWatermarkStep1 st spec o1,
        done ++ [("TEPWatermark", EditVal.watermarkVal spec)]) ∧
    tepWatermarkStep1 st spec o1 = tepWatermarkStep1 st spec o2 := by
  have e1 : applyStepV1 env1 metadata (st, done)
      ("TEPWatermark", EditVal.watermarkVal spec) =
      match env1.overlayResult with
      | Except.error err => Except.error err
      | Except.ok overlay =>
          Except.ok (tepWatermarkStep1 st spec overlay,
            done ++ [("TEPWatermark", EditVal.watermarkVal spec)]) := rfl
  have e2 : applyStepV1 env2 metadata (st, done)
      ("TEPWatermark", EditVal.watermarkVal spec) =
      match env2.overlayResult with
      | Except.error err => Except.error err
      | Except.ok overlay =>
          Except.ok (tepWatermarkStep1 st spec overlay,
            done ++ [("TEPWatermark", EditVal.watermarkVal spec)]) := rfl
  rw [e1, e2, h1, h2]
  exact ⟨rfl, rfl, rfl⟩

/-- C10, witness: two environments whose fetches return different overlay buffers
give identical `TEPWatermark` step outcomes. -/
theorem c10_watermark_fetch_independent_witness :
    applyStepV1 envA d0 (sharpOpen buf0, [])
        ("TEPWatermark", EditVal.watermarkVal wmSpec0) =
      applyStepV1 envB d0 (sharpOpen buf0, [])
        ("TEPWatermark", EditVal.watermarkVal wmSpec0) :=
  (c10_watermark_fetch_independent (sharpOpen buf0) [] envA envB d0 wmSpec0
    bufA bufB rfl rfl).1

end SIH
